import Mathlib

set_option maxRecDepth 4000

/-!
Verification development for the Disruptor Nova targeting and lifecycle
engine of the BoC_PiGBot repository.  The definitions below are a shallow
embedding of `bot/utilities/use_disruptor_nova.py` and
`bot/utilities/nova_manager.py`: Python floats are modelled as rationals
(`ℚ`), float grids that may carry infinities and NaN as grids over `FVal`,
the `-inf` sentinel used to mask grid cells as the extra bottom element of
`EF`, and each fallible operation mirrors the source's `try`/`except`
structure explicitly.
-/

namespace BoC

/-- A 2D game position (`sc2.position.Point2`), stored as `(x, y)`. -/
abbrev Pt := ℚ × ℚ

/-- Squared Euclidean distance between two points.  The source compares
`Point2.distance_to` (a square root) against non-negative thresholds, which
is equivalent to comparing the squared distance against the squared
threshold. -/
def dist2 (a b : Pt) : ℚ :=
  (a.1 - b.1) * (a.1 - b.1) + (a.2 - b.2) * (a.2 - b.2)

/-- Python `int()` truncation toward zero, as applied to coordinates in
`use_disruptor_nova.py` (e.g. `int(enemy.position.y)`). -/
def pyint (q : ℚ) : Int :=
  if q < 0 then -((-q).floor) else q.floor

/-- The clamping idiom `min(max(int(c), 0), dim - 1)` used throughout
`use_disruptor_nova.py` to turn a coordinate into a grid index. -/
def clampIdx (q : ℚ) (dim : Nat) : Nat :=
  (min (max (pyint q) 0) ((dim : Int) - 1)).toNat

/-- One cell of the collaborator's tactical grid: an IEEE float that may be
`+inf`, `-inf`, `NaN`, or a finite value. -/
inductive FVal where
  | pinf : FVal
  | ninf : FVal
  | nan : FVal
  | fin : ℚ → FVal
deriving DecidableEq

/-- The raw tactical ground grid as delivered by the mediator
(`self.mediator.get_tactical_ground_grid`): `h` rows by `w` columns,
row index first (numpy `shape[0]` = `h`). -/
structure FGrid where
  h : Nat
  w : Nat
  val : Nat → Nat → FVal

/-- A sanitized grid of finite values, as produced by `get_grid`. -/
structure QGrid where
  h : Nat
  w : Nat
  val : Nat → Nat → ℚ

/-- A boolean grid (numpy bool array), used for exclusion masks. -/
structure BGrid where
  h : Nat
  w : Nat
  val : Nat → Nat → Bool

/-- A float value that may be the `-np.inf` sentinel assigned by the
targeting code when masking cells out (`EF.bot` plays the role of `-inf`;
all genuine grid values are finite after `get_grid`). -/
inductive EF where
  | bot : EF
  | val : ℚ → EF
deriving DecidableEq

/-- Strict `<` on `EF`, matching IEEE comparison with `-inf`. -/
def EF.ltb : EF → EF → Bool
  | .bot, .bot => false
  | .bot, .val _ => true
  | .val _, .bot => false
  | .val a, .val b => decide (a < b)

/-- Adding a finite float to an `EF` value (`-inf + q = -inf`). -/
def EF.addQ : EF → ℚ → EF
  | .bot, _ => .bot
  | .val a, q => .val (a + q)

/-- Extract the finite value (defaulting `-inf` to 0; only applied after an
acceptance test has already ruled `-inf` out). -/
def EF.toQ : EF → ℚ
  | .bot => 0
  | .val q => q

/-- Per-cell sanitization performed by `get_grid`
(`use_disruptor_nova.py` lines 893-903): `+inf ↦ 500.0`, `-inf ↦ -500.0`,
`NaN ↦ 0.0`, finite values unchanged. -/
def sanitizeCell : FVal → ℚ
  | .pinf => 500
  | .ninf => -500
  | .nan => 0
  | .fin q => q

/-- `UseDisruptorNova.get_grid`: returns `none` when the mediator does not
deliver a valid ndarray (or raises), otherwise a sanitized copy of the
grid. -/
def get_grid : Option FGrid → Option QGrid
  | none => none
  | some fg => some ⟨fg.h, fg.w, fun y x => sanitizeCell (fg.val y x)⟩

/-- The in-simulation unit behind a nova (exposes `position` and
`movement_speed`). -/
structure GUnit where
  pos : Pt
  movement_speed : ℚ
deriving DecidableEq

/-- The mutable attribute state of a `UseDisruptorNova` instance, as set by
`__init__` and mutated by the methods (`use_disruptor_nova.py`).
`has_influence_grid` models `hasattr(self, 'influence_grid')`. -/
structure NovaState where
  cooldown : ℚ
  nova_duration : ℚ
  best_target_pos : Option Pt
  frames_left : Int
  distance_left : ℚ
  unit : Option GUnit
  best_target_influence : ℚ
  best_target_score : ℚ
  has_influence_grid : Bool
deriving DecidableEq

/-- The attribute state produced by `UseDisruptorNova.__init__`
(lines 22-38): `cooldown = 21.4`, `nova_duration = 2.1`,
`best_target_pos = None`, `frames_left = 48`, `distance_left = 0.0`,
`unit = None`, `best_target_influence = 0`. -/
def initialNovaState : NovaState :=
  ⟨107 / 5, 21 / 10, none, 48, 0, none, 0, 0, false⟩

/-- `calculate_distance_left` (lines 758-763):
`frames_left * (unit_speed / 22.4)`. -/
def calculate_distance_left (frames : Int) (speed : ℚ) : ℚ :=
  (frames : ℚ) * (speed / (112 / 5))

/-- `load_info` (lines 746-751): bind the live unit, reset the frame
counter, recompute the remaining distance and take the unit's position as
the initial target. -/
def load_info (s : NovaState) (u : GUnit) : NovaState :=
  { s with unit := some u, frames_left := 48,
           distance_left := calculate_distance_left 48 u.movement_speed,
           best_target_pos := some u.pos }

/-- `update_info` (lines 753-756): decrement the frame counter, then
recompute `distance_left` from `self.unit.movement_speed`.  When `unit` is
`None` the attribute access raises (`none` result). -/
def update_info (s : NovaState) : Option NovaState :=
  match s.unit with
  | none => none
  | some u =>
    some { s with frames_left := s.frames_left - 1,
                  distance_left := calculate_distance_left (s.frames_left - 1) u.movement_speed }

/-- Row-major list of all cell indices of an `h × w` grid. -/
def cellList (h w : Nat) : List (Nat × Nat) :=
  (List.range h).flatMap (fun y => (List.range w).map (fun x => (y, x)))

/-- `np.unravel_index(np.argmax(g), shape)` over an `EF` grid: the first
cell (row-major) attaining the maximum. -/
def argmaxEF (h w : Nat) (g : Nat → Nat → EF) : Nat × Nat :=
  (cellList h w).foldl (fun b c => if EF.ltb (g b.1 b.2) (g c.1 c.2) then c else b) (0, 0)

/-- `np.unravel_index(np.argmax(g), shape)` over a finite grid. -/
def argmaxQ (h w : Nat) (g : Nat → Nat → ℚ) : Nat × Nat :=
  (cellList h w).foldl (fun b c => if g b.1 b.2 < g c.1 c.2 then c else b) (0, 0)

/-- `np.any` of a boolean cell predicate. -/
def anyCell (h w : Nat) (p : Nat → Nat → Bool) : Bool :=
  (cellList h w).any (fun c => p c.1 c.2)

/-- Python `range(0, stop, step)` (for positive `step`). -/
def rangeStep (stop step : Nat) : List Nat :=
  (List.range ((stop + step - 1) / step)).map (· * step)

/-- Squared distance between two integer cell indices, as a rational (the
source compares `np.sqrt` of this against thresholds). -/
def distCells (y x ey ex : Nat) : ℚ :=
  ((((y : Int) - ey) * ((y : Int) - ey) + ((x : Int) - ex) * ((x : Int) - ex) : Int) : ℚ)

/-- Highest-scoring candidate, first one winning ties: the source does a
stable descending sort and takes the head (lines 346-349). -/
def maxByFirst : List (Pt × ℚ) → Option (Pt × ℚ)
  | [] => none
  | p :: ps => some (ps.foldl (fun b c => if b.2 < c.2 then c else b) p)

/-- The `min(enemy_units, key=...)` call of line 362 — the first enemy at
minimal distance from `p` (Python `min` keeps the first minimal element). -/
def minByDist (p : Pt) : List Pt → Pt
  | [] => p
  | e :: es => es.foldl (fun b c => if dist2 p c < dist2 p b then c else b) e

/-- The four offsets added around each enemy position when building
candidate targets in the position-sampling fallback (line 305). -/
def offsets : List Pt := [(2, 0), (-2, 0), (0, 2), (0, -2)]

/-- Candidate targets of `_select_target_position_based` (lines 294-311):
every enemy position followed by its four offset points, then a lattice
with sampling resolution 8 over the grid bounds (or an estimated 200 × 200
area when the grid is unavailable); lattice points are generated `x` outer,
`y` inner, as `Point2((x, y))`. -/
def candidatePositions (g : Option QGrid) (enemies : List Pt) : List Pt :=
  let bounds : Nat × Nat :=
    match g with
    | some grid => (grid.w, grid.h)
    | none => (200, 200)
  enemies.flatMap (fun p => p :: offsets.map (fun d => (p.1 + d.1, p.2 + d.2)))
    ++ (rangeStep bounds.1 8).flatMap
        (fun x => (rangeStep bounds.2 8).map (fun y => ((x : ℚ), (y : ℚ))))

/-- The per-candidate exclusion check of the position tier (lines 316-325):
a candidate is skipped when the mask is present, the grid is present, and
the clamped grid index both lies inside the mask's bounds (an out-of-bounds
index raises `IndexError`, which the source catches and then proceeds to
score the candidate anyway) and is marked `True` there. -/
def maskSkips (mask : Option BGrid) (g : Option QGrid) (pos : Pt) : Bool :=
  match mask, g with
  | some m, some grid =>
    let gy := clampIdx pos.2 grid.h
    let gx := clampIdx pos.1 grid.w
    if gy < m.h && gx < m.w then m.val gy gx else false
  | _, _ => false

/-- Cost-benefit score of one candidate in the position tier
(lines 327-343): `150 × enemies hit − 200 × friendlies hit`, kept only if
at least one enemy is hit and the score exceeds −100. -/
def positionScore (enemies friendlies : List Pt) (pos : Pt) : Option (Pt × ℚ) :=
  let eh := enemies.countP (fun e => decide (dist2 pos e ≤ 9 / 4))
  let fh := friendlies.countP (fun f => decide (dist2 pos f ≤ 9 / 4))
  if 0 < eh then
    let score : ℚ := 150 * (eh : ℚ) - 200 * (fh : ℚ)
    if -100 < score then some (pos, score) else none
  else none

/-- `UseDisruptorNova._select_target_position_based` (lines 267-377).
Returns the chosen position together with the mutated instance state
(`best_target_pos` / `best_target_score` are updated as side effects).
When no scored candidate survives, the last resort targets the
enemy closest to `self.unit.position`; if `unit` is `None` that attribute
access raises and the outer `except` returns `None`. -/
def select_target_position_based (s : NovaState) (mgrid : Option FGrid)
    (enemies friendlies : List Pt) (mask : Option BGrid) : Option Pt × NovaState :=
  let g := get_grid mgrid
  let scored := (candidatePositions g enemies).filterMap
    (fun pos => if maskSkips mask g pos then none else positionScore enemies friendlies pos)
  match maxByFirst scored with
  | some bs =>
    (some bs.1, { s with best_target_pos := some bs.1, best_target_score := bs.2 })
  | none =>
    if enemies.isEmpty then (none, s)
    else
      match s.unit with
      | none => (none, s)
      | some u =>
        let tp := minByDist u.pos enemies
        (some tp, { s with best_target_pos := some tp, best_target_score := -1 })

/-- The enemy boost mask of the grid tier (lines 100-126): the union over
enemies of the cells within blast radius 1.5 of the enemy's clamped cell. -/
def boostMask (grid : QGrid) (enemies : List Pt) (y x : Nat) : Bool :=
  enemies.any (fun e =>
    decide (distCells y x (clampIdx e.2 grid.h) (clampIdx e.1 grid.w) ≤ 9 / 4))

/-- The accumulated friendly penalty of the grid tier (lines 150-185):
150 per friendly unit whose clamped cell is within blast radius. -/
def friendlyPenalty (grid : QGrid) (friendlies : List Pt) (y x : Nat) : ℚ :=
  150 * ((friendlies.countP (fun f =>
    decide (distCells y x (clampIdx f.2 grid.h) (clampIdx f.1 grid.w) ≤ 9 / 4))) : ℚ)

/-- The working grid before boosts: the sanitized grid with the exclusion
mask applied (`working_grid[exclusion_mask] = -np.inf`, line 88), or a
plain copy when no mask is supplied (line 96). -/
def workingGridBase (grid : QGrid) (mask : Option BGrid) : Nat → Nat → EF :=
  fun y x =>
    match mask with
    | some m => if m.val y x then .bot else .val (grid.val y x)
    | none => .val (grid.val y x)

/-- Boost and penalty application (lines 139 and 185): `+50` once on the
union boost mask, then subtract the accumulated friendly penalty. -/
def boostedPenalized (grid : QGrid) (enemies friendlies : List Pt)
    (wg : Nat → Nat → EF) : Nat → Nat → EF :=
  fun y x =>
    let b := if boostMask grid enemies y x then EF.addQ (wg y x) 50 else wg y x
    EF.addQ b (-(friendlyPenalty grid friendlies y x))

/-- Membership in the 2-cell border margin masked out at lines 195-200
(`working_grid[:2,:]`, `[:, :2]`, `[-2:, :]`, `[:, -2:]` are set to
`-np.inf`). -/
def isEdge (h w y x : Nat) : Bool :=
  decide (y < 2) || decide (x < 2) || decide (h ≤ y + 2) || decide (w ≤ x + 2)

/-- The edge-masking step itself. -/
def edgeMasked (h w : Nat) (g : Nat → Nat → EF) : Nat → Nat → EF :=
  fun y x => if isEdge h w y x then .bot else g y x

/-- Grid-tier acceptance test of line 230:
`210 < best_influence < 600`, strict on both bounds. -/
def gridAccept (v : EF) : Bool :=
  EF.ltb (.val 210) v && EF.ltb v (.val 600)

/-- Lines 193-230 of the grid tier: mask the 2-cell border, take the
row-major argmax, and accept it only when `gridAccept` holds, returning the
chosen cell together with its (finite) influence value. -/
def gridTierCandidate (h w : Nat) (wg : Nat → Nat → EF) : Option ((Nat × Nat) × ℚ) :=
  let wg3 := edgeMasked h w wg
  let c := argmaxEF h w wg3
  if gridAccept (wg3 c.1 c.2) then some (c, (wg3 c.1 c.2).toQ) else none

/-- The grid tier of `select_best_target` (lines 99-261): boost/penalize
the working grid, pick the best bordered cell, and on acceptance store it
as `best_target_pos` / `best_target_influence` (lines 231-242); otherwise
fall through to the position tier with the original mask (line 246). -/
def gridTier (s : NovaState) (mgrid : Option FGrid) (grid : QGrid)
    (enemies friendlies : List Pt) (mask : Option BGrid)
    (wg0 : Nat → Nat → EF) : Option Pt × NovaState :=
  let wg2 := boostedPenalized grid enemies friendlies wg0
  match gridTierCandidate grid.h grid.w wg2 with
  | some ci =>
    let pos : Pt := ((ci.1.2 : ℚ), (ci.1.1 : ℚ))
    (some pos, { s with best_target_pos := some pos, best_target_influence := ci.2 })
  | none => select_target_position_based s mgrid enemies friendlies mask

/-- `UseDisruptorNova.select_best_target` (lines 44-265): empty enemy list
returns `None` immediately (line 57); a missing grid falls back to the
position tier (line 67); a supplied mask whose shape differs from the grid
also falls back to the position tier, still passing the mask along
(lines 80-83); otherwise the grid tier runs with the mask applied. -/
def select_best_target (s : NovaState) (mgrid : Option FGrid)
    (enemies friendlies : List Pt) (mask : Option BGrid) : Option Pt × NovaState :=
  if enemies.isEmpty then (none, s)
  else
    match get_grid mgrid with
    | none => select_target_position_based s mgrid enemies friendlies mask
    | some grid =>
      match mask with
      | some m =>
        if (m.h, m.w) = (grid.h, grid.w) then
          gridTier s mgrid grid enemies friendlies mask (workingGridBase grid mask)
        else select_target_position_based s mgrid enemies friendlies mask
      | none => gridTier s mgrid grid enemies friendlies none (workingGridBase grid none)

/-- The manager interface that `update_target_position` accesses through
duck typing: each field is `none` when the corresponding attribute is
missing on the manager object (its access then raises `AttributeError`,
which the source catches at the enclosing `try`).  The actual `NovaManager`
class of `nova_manager.py` defines none of these attributes (see
`novaManagerIface`).  The register/unregister operations' effects on the
claim registry are not observed by any computation modelled here, so they
are recorded as presence markers only. -/
structure ManagerIface where
  nova_speed : Option ℚ
  current_targets : Option (List Pt)
  get_exclusion_mask : Option (QGrid → Option BGrid)
  register_nova_target : Option Unit
  unregister_nova_target : Option Unit

/-- The `ManagerIface` presented by every instance of the `NovaManager`
class of `nova_manager.py`, which defines only `bot`, `map_data` and
`active_novas` (lines 7-12): none of the attributes that
`update_target_position` needs exist. -/
def novaManagerIface : ManagerIface := ⟨none, none, none, none, none⟩

/-- `distances > max_travel_distance` of line 423, on squared distances:
when `max_travel` is negative every non-negative real distance exceeds it;
otherwise compare squares. -/
def outOfReach (d2 mt : ℚ) : Bool :=
  if mt < 0 then true else decide (mt * mt < d2)

/-- The combined exclusion mask of lines 412-446: the reachability mask
(cells farther than the remaining travel distance from the nova's current
position), OR-ed with the manager's exclusion mask when
`get_exclusion_mask` exists, returns a mask, and that mask's shape matches
the grid (otherwise the failure is caught and the reachability mask alone
is used). -/
def retargetCombinedMask (mgr : ManagerIface) (grid : QGrid) (upos : Pt)
    (maxTravel : ℚ) : Nat → Nat → Bool :=
  let oor : Nat → Nat → Bool :=
    fun y x => outOfReach (dist2 ((x : ℚ), (y : ℚ)) upos) maxTravel
  match mgr.get_exclusion_mask with
  | none => oor
  | some f =>
    match f grid with
    | none => oor
    | some m =>
      if m.h = grid.h ∧ m.w = grid.w then fun y x => m.val y x || oor y x else oor

/-- The direct grid-influence search of lines 449-502: if any cell is
valid under the combined mask, set invalid cells to −500, take the
row-major argmax; if the winner lies within 5 units of another claimed
target (other than the nova's own), additionally mask a radius-5 disc
around every claimed target and take the argmax again.  Returns `none`
when no cell is valid. -/
def novaGridSearch (grid : QGrid) (combined : Nat → Nat → Bool) (bt : Pt)
    (targetsAttr : Option (List Pt)) : Option (Pt × ℚ) :=
  let valid : Nat → Nat → Bool := fun y x => ! combined y x
  if anyCell grid.h grid.w valid then
    let masked : Nat → Nat → ℚ := fun y x => if valid y x then grid.val y x else -500
    let c := argmaxQ grid.h grid.w masked
    let nt : Pt := ((c.2 : ℚ), (c.1 : ℚ))
    let bad : Bool :=
      match targetsAttr with
      | some ts => ts.any (fun t => decide (t ≠ bt ∧ dist2 nt t < 25))
      | none => false
    if bad then
      match targetsAttr with
      | some ts =>
        let masked2 : Nat → Nat → ℚ := fun y x =>
          if ts.any (fun t => decide (dist2 ((x : ℚ), (y : ℚ)) t < 25)) then -500
          else masked y x
        let c2 := argmaxQ grid.h grid.w masked2
        some (((c2.2 : ℚ), (c2.1 : ℚ)), masked2 c2.1 c2.2)
      | none => some (nt, masked c.1 c.2)
    else some (nt, masked c.1 c.2)
  else none

/-- The relative improvement of lines 550-555: `±1` when the current
influence has magnitude below 1, otherwise `(new − current)/|current|`. -/
def retargetImprovement (cur nv : ℚ) : ℚ :=
  if |cur| < 1 then (if cur < nv then 1 else -1) else (nv - cur) / |cur|

/-- Lines 523-601 of `update_target_position`: given the candidate target
(and its influence when found by the direct grid search), look up the
current target's influence, store the new influence, and switch
`best_target_pos` only when the improvement exceeds 0.15 and the candidate
is at least 5 units from every other claimed target; returns `True`
whenever the improvement test passes, `False` otherwise. -/
def retargetFinish (s1 : NovaState) (grid : QGrid) (mgr : ManagerIface)
    (ntOpt : Option Pt) (niOpt : Option ℚ) : NovaState × Bool :=
  match ntOpt, s1.best_target_pos with
  | some nt, some bt1 =>
    let curInf := grid.val (clampIdx bt1.2 grid.h) (clampIdx bt1.1 grid.w)
    let newInf :=
      match niOpt with
      | some v => v
      | none => grid.val (clampIdx nt.2 grid.h) (clampIdx nt.1 grid.w)
    let s2 := { s1 with best_target_influence := newInf }
    if 3 / 20 < retargetImprovement curInf newInf then
      let tooClose : Bool :=
        match mgr.current_targets with
        | some ts => ts.any (fun t => decide (t ≠ bt1 ∧ dist2 nt t < 25))
        | none => false
      if tooClose then (s2, true) else ({ s2 with best_target_pos := some nt }, true)
    else (s2, false)
  | _, _ => (s1, false)

/-- `UseDisruptorNova.update_target_position` (lines 379-605).  Guards:
no current target or no live unit, or fewer than 5 frames left, return
`False` unchanged.  A missing `nova_speed` attribute on the manager raises
and is absorbed by the outer `except` (return `False`).  Otherwise the
direct grid search runs under the combined reachability/exclusion mask;
when it fails, `select_best_target` is invoked as a fallback — mutating
the instance state as a side effect — and the switch logic of
`retargetFinish` concludes. -/
def update_target_position (s : NovaState) (enemies friendlies : List Pt)
    (mgr : ManagerIface) (mgrid : Option FGrid) : NovaState × Bool :=
  match s.best_target_pos, s.unit with
  | none, _ => (s, false)
  | some _, none => (s, false)
  | some bt, some u =>
    if s.frames_left < 5 then (s, false)
    else
      match mgr.nova_speed with
      | none => (s, false)
      | some sp =>
        match get_grid mgrid with
        | none => (s, false)
        | some grid =>
          let combined :=
            retargetCombinedMask mgr grid u.pos (sp * (s.frames_left : ℚ) / (112 / 5))
          match novaGridSearch grid combined bt mgr.current_targets with
          | some ni => retargetFinish s grid mgr (some ni.1) (some ni.2)
          | none =>
            let fb := select_best_target s mgrid enemies friendlies
              (some ⟨grid.h, grid.w, combined⟩)
            retargetFinish fb.2 grid mgr fb.1 none

/-- A movement command issued to the in-simulation nova unit. -/
inductive Cmd where
  | move : Pt → Cmd
deriving DecidableEq

/-- How one call of `run_step` terminates: a normal return carrying the
`frames_left > 0` flag, or an uncaught Python exception. -/
inductive StepOutcome where
  | ok : Bool → StepOutcome
  | raised : StepOutcome
deriving DecidableEq

/-- The movement block of `run_step` (lines 738-744): when a target is set
and differs from the unit's position, command a move; the comparison
dereferences `self.unit.position`, which raises `AttributeError` when the
unit is not yet bound. -/
def runStepMove (s : NovaState) : NovaState × List Cmd × StepOutcome :=
  match s.best_target_pos with
  | none => (s, [], .ok (0 < s.frames_left))
  | some t =>
    match s.unit with
    | none => (s, [], .raised)
    | some u =>
      if t = u.pos then (s, [], .ok (0 < s.frames_left))
      else (s, [Cmd.move t], .ok (0 < s.frames_left))

/-- `UseDisruptorNova.run_step` (lines 714-744): return `False` when the
counter is exhausted, otherwise decrement it, optionally retarget through
the manager, possibly run debug visualization (which dereferences the unit
and so raises when it is unbound), and finally the movement block. -/
def run_step (s : NovaState) (mgr : Option ManagerIface)
    (enemies friendlies : List Pt) (mgrid : Option FGrid) :
    NovaState × List Cmd × StepOutcome :=
  if s.frames_left ≤ 0 then (s, [], .ok false)
  else
    let s1 := { s with frames_left := s.frames_left - 1 }
    let s2 :=
      match mgr with
      | some m => (update_target_position s1 enemies friendlies m mgrid).1
      | none => s1
    if s2.frames_left % 22 == 0 && s2.has_influence_grid then
      match s2.unit with
      | none => (s2, [], .raised)
      | some _ => runStepMove s2
    else runStepMove s2

/-- One nova's share of `NovaManager.update` (lines 26-30): first
`update_info`, then `run_step` with no manager argument (the source calls
`nova.run_step(enemy_units, friendly_units)`, leaving `nova_manager` at
its default `None`).  An uncaught exception propagates as `none`. -/
def novaTick (enemies friendlies : List Pt) (mgrid : Option FGrid)
    (s : NovaState) : Option NovaState :=
  match update_info s with
  | none => none
  | some s1 =>
    match run_step s1 none enemies friendlies mgrid with
    | (_, _, .raised) => none
    | (s2, _, .ok _) => some s2

/-- `NovaManager.update` (lines 23-37): update every active nova, collect
those with `frames_left <= 0`, and remove them. -/
def managerUpdate (enemies friendlies : List Pt) (mgrid : Option FGrid)
    (novas : List NovaState) : Option (List NovaState) :=
  match novas.mapM (novaTick enemies friendlies mgrid) with
  | none => none
  | some updated => some (updated.filter (fun s => decide (0 < s.frames_left)))

/-- Iterated coordinator ticks. -/
def managerUpdateN (enemies friendlies : List Pt) (mgrid : Option FGrid) :
    Nat → List NovaState → Option (List NovaState)
  | 0, ns => some ns
  | n + 1, ns =>
    match managerUpdate enemies friendlies mgrid ns with
    | none => none
    | some ns1 => managerUpdateN enemies friendlies mgrid n ns1

/-- Python error kinds relevant to the modelled calls. -/
inductive PyErr where
  | typeError
  | attributeError
deriving DecidableEq

/-- `UseDisruptorNova.__init__(self, mediator, bot)` takes exactly two
parameters besides `self` (line 22). -/
def useDisruptorNovaInitParams : Nat := 2

/-- Calling the constructor with `argCount` positional arguments: CPython
checks the arity before running the body and raises `TypeError` on a
mismatch; on a match the body produces `initialNovaState`. -/
def callUseDisruptorNovaInit (argCount : Nat) : Option NovaState :=
  if argCount = useDisruptorNovaInitParams then some initialNovaState else none

/-- The argument object handed to `NovaManager.add_nova`: an in-simulation
unit, together with whether it exposes an `update_info` attribute (a raw
`DISRUPTORPHASED` unit does not). -/
structure PyNovaArg where
  unit : GUnit
  has_update_info : Bool
deriving DecidableEq

/-- An entry of `NovaManager.active_novas`: either a wrapped
`UseDisruptorNova` instance or an object that already exposed
`update_info`. -/
inductive NovaEntry where
  | wrapped : NovaState → NovaEntry
  | raw : PyNovaArg → NovaEntry
deriving DecidableEq

/-- `NovaManager.add_nova` (lines 14-21): when the argument lacks
`update_info` it attempts `UseDisruptorNova(10, 5, self.map_data,
self.bot)` — four positional arguments against a two-parameter
constructor — so the call raises `TypeError` before anything is appended;
otherwise the argument is appended as-is. -/
def add_nova (active : List NovaEntry) (nova : PyNovaArg) :
    List NovaEntry × Option PyErr :=
  if nova.has_update_info then (active ++ [.raw nova], none)
  else
    match callUseDisruptorNovaInit 4 with
    | none => (active, some .typeError)
    | some s => (active ++ [.wrapped (load_info s nova.unit)], none)

/-!
Concrete instances used by the counterexamples and witnesses below.
-/

/-- A nova with a bound unit sitting on its own target, 48 frames left —
the state of a freshly fired, tracked nova. -/
def c1nova : NovaState := ⟨107 / 5, 21 / 10, some (5, 5), 48, 0, some ⟨(5, 5), 0⟩, 0, 0, false⟩

/-- A nova in the state `execute` leaves behind on a successful fire
(lines 698-704): a target is recorded but `unit` is still `None`. -/
def c2nova : NovaState := ⟨107 / 5, 21 / 10, some (10, 10), 48, 0, none, 0, 0, false⟩

/-- An 8 × 8 tactical grid, uniformly 200 (the neutral baseline) except
for a strong cell of value 300 at row 5, column 5. -/
def c3fgrid : FGrid := ⟨8, 8, fun y x => if y = 5 ∧ x = 5 then .fin 300 else .fin 200⟩

/-- A 4 × 4 all-false exclusion mask — the wrong shape for `c3fgrid`. -/
def c3mask : BGrid := ⟨4, 4, fun _ _ => false⟩

/-- The sanitized form of `c3fgrid` delivered by `get_grid`. -/
def c3Q : QGrid := ⟨8, 8, fun y x => sanitizeCell (c3fgrid.val y x)⟩

/-- A 1 × 1 raw grid holding a single NaN cell. -/
def c4nanGrid : FGrid := ⟨1, 1, fun _ _ => .nan⟩

/-- An 8 × 8 grid whose every cell is 0, far below the acceptance band, so
the grid tier always falls through to the position tier. -/
def c5grid : FGrid := ⟨8, 8, fun _ _ => .fin 0⟩

/-- A nova instance with a bound unit, used as the selector's `self`. -/
def c5state : NovaState := ⟨107 / 5, 21 / 10, none, 48, 0, some ⟨(5, 5), 0⟩, 0, 0, false⟩

/-- A working grid whose only high cell (value 300) is interior. -/
def c5wg : Nat → Nat → EF := fun y x => if y = 3 ∧ x = 3 then .val 300 else .val 0

/-- A nova mid-flight: target (6,6), unit at (5,5), 10 frames left. -/
def c6s : NovaState := ⟨107 / 5, 21 / 10, some (6, 6), 10, 0, some ⟨(5, 5), 0⟩, 0, 0, false⟩

/-- A fully featured manager whose exclusion mask covers the entire grid,
forcing the direct grid search of `update_target_position` to fail and the
`select_best_target` fallback to run. -/
def c6mgr : ManagerIface :=
  ⟨some (119 / 20), some [], some (fun g => some ⟨g.h, g.w, fun _ _ => true⟩), some (), some ()⟩

/-- An 8 × 8 grid at the uniform neutral baseline 200. -/
def c6grid : FGrid := ⟨8, 8, fun _ _ => .fin 200⟩

/-- A nova mid-flight used by the C6 witness: target (4,4), unit at (2,2),
48 frames left. -/
def c6ws : NovaState := ⟨107 / 5, 21 / 10, some (4, 4), 48, 0, some ⟨(2, 2), 0⟩, 0, 0, false⟩

/-- A manager with `nova_speed` and an empty claim set, and no
`get_exclusion_mask` attribute (its access raises and leaves the
reachability mask alone in force). -/
def c6wmgr : ManagerIface := ⟨some (119 / 20), some [], none, some (), some ()⟩

/-- A 5 × 5 grid with one strong cell (400) at row 1, column 1 over a
baseline of 200. -/
def c6wgrid : FGrid := ⟨5, 5, fun y x => if y = 1 ∧ x = 1 then .fin 400 else .fin 200⟩

/-- The sanitized form of `c6wgrid`. -/
def c6wQ : QGrid := ⟨5, 5, fun y x => sanitizeCell (c6wgrid.val y x)⟩

/-- The amended sanitization map, written from the amended claim: `+inf`
to 500, `-inf` to −500, NaN to 0, finite values unchanged. -/
def sanitizeSpecAmended : FVal → ℚ
  | .pinf => 500
  | .ninf => -500
  | .nan => 0
  | .fin q => q

/-- A nova with both a recorded target and a bound unit, for exercising
`update_target_position` against the real `NovaManager` interface. -/
def c9s : NovaState := ⟨107 / 5, 21 / 10, some (1, 1), 48, 0, some ⟨(0, 0), 1⟩, 0, 0, false⟩

/-- A raw `DISRUPTORPHASED` unit handed to `add_nova`: it has no
`update_info` attribute. -/
def c10arg : PyNovaArg := ⟨⟨(0, 0), 1⟩, false⟩

/-!
Helper lemmas.
-/

/-- With no enemy units the position tier returns `None` and leaves the
instance state untouched: no candidate hits any enemy and the last-resort
branch is guarded by the enemy list. -/
theorem select_target_position_based_no_enemies (s : NovaState) (mgrid : Option FGrid)
    (friendlies : List Pt) (mask : Option BGrid) :
    select_target_position_based s mgrid [] friendlies mask = (none, s) := by
  have hscored : ((candidatePositions (get_grid mgrid) []).filterMap
      (fun pos => if maskSkips mask (get_grid mgrid) pos then none
                  else positionScore [] friendlies pos)) = [] := by
    rw [List.filterMap_eq_nil_iff]
    intro a _
    by_cases h : maskSkips mask (get_grid mgrid) a = true
    · simp [h]
    · simp [h, positionScore]
  simp only [select_target_position_based]
  rw [hscored]
  simp [maxByFirst]

/-- The switch step of `update_target_position`: whenever `retargetFinish`
actually changes `best_target_pos` (given a candidate and its influence
from the direct grid search), the improvement exceeded 0.15, the candidate
is at least 5 units from every other claimed target, and the new target is
the candidate. -/
theorem retargetFinish_change (s1 : NovaState) (grid : QGrid) (mgr : ManagerIface)
    (nt : Pt) (ni : ℚ) (bt1 : Pt) (hb : s1.best_target_pos = some bt1)
    (hch : (retargetFinish s1 grid mgr (some nt) (some ni)).1.best_target_pos
            ≠ s1.best_target_pos) :
    3 / 20 < retargetImprovement
        (grid.val (clampIdx bt1.2 grid.h) (clampIdx bt1.1 grid.w)) ni
    ∧ (∀ t ∈ mgr.current_targets.getD [], t ≠ bt1 → 25 ≤ dist2 nt t)
    ∧ (retargetFinish s1 grid mgr (some nt) (some ni)).1.best_target_pos = some nt := by
  obtain ⟨cd, nd, btp, fl, dl, un, bti, bts, hig⟩ := s1
  simp only at hb
  subst hb
  unfold retargetFinish at hch ⊢
  dsimp only at hch ⊢
  by_cases himp : 3 / 20 < retargetImprovement
      (grid.val (clampIdx bt1.2 grid.h) (clampIdx bt1.1 grid.w)) ni
  · rw [if_pos himp] at hch ⊢
    cases hct : mgr.current_targets with
    | none =>
      simp only [hct] at hch ⊢
      refine ⟨himp, by simp [hct], by simp⟩
    | some ts =>
      simp only [hct] at hch ⊢
      by_cases hclose : ts.any (fun t => decide (t ≠ bt1 ∧ dist2 nt t < 25)) = true
      · rw [if_pos hclose] at hch
        simp at hch
      · rw [if_neg hclose] at hch ⊢
        refine ⟨himp, ?_, by simp⟩
        intro t ht hne
        rw [List.any_eq_true] at hclose
        push_neg at hclose
        have ht2 := hclose t (by simpa [hct] using ht)
        simp only [decide_eq_true_eq] at ht2
        have h2 : ¬ (t ≠ bt1 ∧ dist2 nt t < 25) := by
          intro hcontra
          exact ht2 (by simpa using hcontra)
        rcases not_and_or.mp h2 with h3 | h3
        · exact absurd hne h3
        · exact le_of_not_lt h3
  · rw [if_neg himp] at hch
    simp at hch

/-!
Claim theorems.
-/

/-- C8: for every field snapshot, friendly list and exclusion mask, if the
hostile unit list is empty then `select_best_target` returns `None`
immediately and leaves the instance state untouched — no tier runs
(line 57 of `use_disruptor_nova.py`). -/
theorem C8_empty_hostiles_returns_none (s : NovaState) (mgrid : Option FGrid)
    (friendlies : List Pt) (mask : Option BGrid) :
    select_best_target s mgrid [] friendlies mask = (none, s) := rfl

/-- C10: for every argument lacking an `update_info` attribute,
`NovaManager.add_nova` raises `TypeError` (the wrapping constructor call
passes four positional arguments to the two-parameter
`UseDisruptorNova.__init__`) and `active_novas` is left unchanged, so no
wrapped instance is appended. -/
theorem C10_add_nova_raises_type_error (active : List NovaEntry) (nova : PyNovaArg)
    (h : nova.has_update_info = false) :
    add_nova active nova = (active, some .typeError) := by
  unfold add_nova
  rw [h]
  simp [callUseDisruptorNovaInit, useDisruptorNovaInitParams]

/-- Witness for C10 at a concrete raw unit. -/
theorem C10_add_nova_raises_type_error_witness :
    c10arg.has_update_info = false
    ∧ add_nova [] c10arg = ([], some .typeError) :=
  ⟨rfl, C10_add_nova_raises_type_error [] c10arg rfl⟩

/-- C9: for every nova instance with a recorded target and a bound unit,
and every manager that is an instance of the `NovaManager` class of
`nova_manager.py` (which defines none of `nova_speed`, `current_targets`,
`get_exclusion_mask`, register/unregister), `update_target_position`
returns `False` and leaves the whole instance state — in particular
`best_target_pos` — unchanged: the first missing attribute access
(`nova_speed`, line 404) raises `AttributeError`, absorbed by the outer
`except` (line 603). -/
theorem C9_nova_manager_attribute_errors_absorbed (s : NovaState)
    (enemies friendlies : List Pt) (mgrid : Option FGrid)
    (hb : s.best_target_pos.isSome = true) (hu : s.unit.isSome = true) :
    update_target_position s enemies friendlies novaManagerIface mgrid = (s, false) := by
  obtain ⟨bt, hbt⟩ := Option.isSome_iff_exists.mp hb
  obtain ⟨u, hu1⟩ := Option.isSome_iff_exists.mp hu
  obtain ⟨cd, nd, btp, fl, dl, un, bti, bts, hig⟩ := s
  simp only at hbt hu1
  subst hbt
  subst hu1
  unfold update_target_position
  dsimp only [novaManagerIface]
  split <;> rfl

/-- Witness for C9 at a concrete instance state. -/
theorem C9_nova_manager_attribute_errors_absorbed_witness :
    c9s.best_target_pos.isSome = true
    ∧ c9s.unit.isSome = true
    ∧ update_target_position c9s [] [] novaManagerIface none = (c9s, false) :=
  ⟨rfl, rfl, C9_nova_manager_attribute_errors_absorbed c9s [] [] none rfl rfl⟩

/-- C3 (amended): a mismatched-shape exclusion mask makes
`select_best_target` abort the grid tier and return the position-sampling
tier's result under that same mask, without raising — which need not be
the no-mask result (see the counterexample). -/
theorem C3_wrong_shape_mask_falls_back (s : NovaState) (mgrid : Option FGrid)
    (enemies friendlies : List Pt) (m : BGrid) (grid : QGrid)
    (hg : get_grid mgrid = some grid) (hne : (m.h, m.w) ≠ (grid.h, grid.w)) :
    select_best_target s mgrid enemies friendlies (some m)
      = select_target_position_based s mgrid enemies friendlies (some m) := by
  unfold select_best_target
  rw [hg]
  cases he : enemies.isEmpty with
  | false =>
    rw [if_neg (by simp [he])]
    dsimp only
    rw [if_neg hne]
  | true =>
    rw [if_pos (by simp [he])]
    have hnil : enemies = [] := List.isEmpty_iff.mp he
    subst hnil
    rw [select_target_position_based_no_enemies]

/-- C5 (amended): the grid tier never accepts a cell inside the fixed
2-cell border margin — any accepted argmax cell lies outside the margin,
because margin cells are forced to `-inf` before the argmax and the
acceptance bound `210 < v` rules `-inf` out.  (The position-sampling
fallback can still return border positions, see the counterexample.) -/
theorem C5_grid_tier_avoids_margin (h w : Nat) (g : Nat → Nat → EF)
    (c : Nat × Nat) (q : ℚ) (hc : gridTierCandidate h w g = some (c, q)) :
    isEdge h w c.1 c.2 = false := by
  unfold gridTierCandidate at hc
  dsimp only at hc
  by_cases hacc : gridAccept (edgeMasked h w g (argmaxEF h w (edgeMasked h w g)).1
      (argmaxEF h w (edgeMasked h w g)).2) = true
  · rw [if_pos hacc] at hc
    have hcc : argmaxEF h w (edgeMasked h w g) = c := by
      injection hc with h1
      exact congrArg Prod.fst h1
    rw [hcc] at hacc
    by_contra hedge
    have hedge2 : isEdge h w c.1 c.2 = true := by
      cases hb : isEdge h w c.1 c.2
      · exact absurd hb hedge
      · rfl
    rw [show edgeMasked h w g c.1 c.2 = .bot by simp [edgeMasked, hedge2]] at hacc
    simp [gridAccept, EF.ltb] at hacc
  · rw [if_neg hacc] at hc
    exact absurd hc (by simp)

/-- C6 (amended): whenever the direct grid search of
`update_target_position` yields a candidate (so the selector fallback is
not invoked) and the call changes `best_target_pos`, the change went
through the switch step: the computed improvement exceeded 0.15, the
candidate is at least 5 units from every other claimed target, and the new
target is exactly the candidate.  (When the direct search fails, the
`select_best_target` fallback can replace the target without these checks
— see the counterexample.) -/
theorem C6_switch_requires_improvement_and_spacing
    (s : NovaState) (enemies friendlies : List Pt) (mgr : ManagerIface)
    (mgrid : Option FGrid) (bt : Pt) (u : GUnit) (sp : ℚ) (grid : QGrid)
    (nt : Pt) (ni : ℚ)
    (hbt : s.best_target_pos = some bt) (hu : s.unit = some u)
    (hfr : ¬ s.frames_left < 5) (hsp : mgr.nova_speed = some sp)
    (hg : get_grid mgrid = some grid)
    (hsearch : novaGridSearch grid
        (retargetCombinedMask mgr grid u.pos (sp * (s.frames_left : ℚ) / (112 / 5)))
        bt mgr.current_targets = some (nt, ni))
    (hch : (update_target_position s enemies friendlies mgr mgrid).1.best_target_pos
            ≠ s.best_target_pos) :
    3 / 20 < retargetImprovement
        (grid.val (clampIdx bt.2 grid.h) (clampIdx bt.1 grid.w)) ni
    ∧ (∀ t ∈ mgr.current_targets.getD [], t ≠ bt → 25 ≤ dist2 nt t)
    ∧ (update_target_position s enemies friendlies mgr mgrid).1.best_target_pos
        = some nt := by
  have hupd : update_target_position s enemies friendlies mgr mgrid
      = retargetFinish s grid mgr (some nt) (some ni) := by
    obtain ⟨cd, nd, btp, fl, dl, un, bti, bts, hig⟩ := s
    simp only at hbt hu hfr hsearch
    subst hbt
    subst hu
    unfold update_target_position
    dsimp only
    rw [if_neg hfr, hsp]
    dsimp only
    rw [hg]
    dsimp only
    rw [hsearch]
  rw [hupd] at hch ⊢
  exact retargetFinish_change s grid mgr nt ni bt hbt hch

/-- C4 (amended): `get_grid` replaces every `+inf` cell of the
collaborator's grid by `500`, every `-inf` cell by `-500`, and every NaN
cell by `0.0` (not a ±500 sentinel), so the returned grid contains only
finite values.  The map `sanitizeSpecAmended` restates the amended claim;
it agrees with the source's `sanitizeCell` on every cell. -/
theorem C4_sanitization (fg : FGrid) (y x : Nat) :
    (get_grid (some fg)).map (fun g => g.val y x)
      = some (sanitizeSpecAmended (fg.val y x)) := by
  cases h : fg.val y x <;> simp [get_grid, sanitizeCell, sanitizeSpecAmended, h]

section ConcreteEvaluations

attribute [local semireducible] Rat.add Rat.mul Rat.inv Rat.sub

/-- C1: the claim says `frames_left` decreases by exactly 1 per coordinator
tick and a 48-frame instance is removed exactly 48 ticks after creation.
Evaluating the code on a bound 48-frame instance: after one
`NovaManager.update` tick `frames_left` is 46 (`update_info` and
`run_step` each decrement), the instance is still present after 23 ticks,
and it is removed at tick 24 — half the documented lifetime. -/
theorem C1_coordinator_tick_double_decrement :
    (managerUpdateN [] [] none 1 [c1nova]).map (List.map NovaState.frames_left) = some [46]
    ∧ (managerUpdateN [] [] none 23 [c1nova]).map List.length = some 1
    ∧ managerUpdateN [] [] none 24 [c1nova] = some [] :=
  ⟨by decide, by decide, by decide⟩

/-- C2: the claim says `run_step` on an instance whose unit is unbound
counts the tick, skips movement and completes without raising.  Evaluating
the code at the post-`execute` state (target recorded, `unit = None`):
the frame counter is decremented and no move command is issued, but the
step terminates with an uncaught `AttributeError` from
`self.unit.position` at the movement check (line 738). -/
theorem C2_run_step_unbound_unit_raises :
    run_step c2nova none [] [] none
      = ({ c2nova with frames_left := 47 }, [], .raised) := by decide

/-- C7: grid-tier acceptance of the maximum-value cell is strict on both
bounds — 210.0 rejected, 210.01 accepted, 600.0 rejected, 599.99 accepted,
and in general a finite value is accepted iff `210 < v < 600`
(`gridAccept` is the test applied to the argmax cell in
`gridTierCandidate`). -/
theorem C7_grid_acceptance_strict_bounds :
    gridAccept (.val 210) = false
    ∧ gridAccept (.val (21001 / 100)) = true
    ∧ gridAccept (.val 600) = false
    ∧ gridAccept (.val (59999 / 100)) = true
    ∧ ∀ q : ℚ, (gridAccept (.val q) = true ↔ (210 < q ∧ q < 600)) := by
  refine ⟨by decide, by decide, by decide, by decide, ?_⟩
  intro q
  simp [gridAccept, EF.ltb]

/-- C3 counterexample: on `c3fgrid` with one hostile at (3,3), passing the
wrong-shape mask `c3mask` yields the position-tier result (3,3), while
passing no mask at all yields the grid-tier result (5,5) — the two calls
do not return the same result, contradicting the claim. -/
theorem C3_wrong_shape_mask_cex :
    (select_best_target c5state (some c3fgrid) [(3, 3)] [] (some c3mask)).1 = some (3, 3)
    ∧ (select_best_target c5state (some c3fgrid) [(3, 3)] [] none).1 = some (5, 5) :=
  ⟨by decide, by decide⟩

/-- Witness for the amended C3 theorem at the concrete mismatch instance. -/
theorem C3_wrong_shape_mask_falls_back_witness :
    get_grid (some c3fgrid) = some c3Q
    ∧ (c3mask.h, c3mask.w) ≠ (c3Q.h, c3Q.w)
    ∧ select_best_target c5state (some c3fgrid) [(3, 3)] [] (some c3mask)
        = select_target_position_based c5state (some c3fgrid) [(3, 3)] [] (some c3mask) :=
  ⟨rfl, by decide,
    C3_wrong_shape_mask_falls_back c5state (some c3fgrid) [(3, 3)] [] c3mask c3Q rfl
      (by decide)⟩

/-- C4 counterexample: a NaN cell is replaced by `0.0`, whose magnitude is
not 500 — contradicting the claim that NaN becomes a sentinel of magnitude
500. -/
theorem C4_nan_becomes_zero_cex :
    (get_grid (some c4nanGrid)).map (fun g => g.val 0 0) = some 0
    ∧ (0 : ℚ) ≠ 500 ∧ (0 : ℚ) ≠ -500 :=
  ⟨by decide, by decide, by decide⟩

/-- C5 counterexample: on the all-zero grid `c5grid` with one hostile at
(1,1), the grid tier finds nothing acceptable and the position-sampling
fallback returns (1,1) — a cell inside the 2-cell border margin —
contradicting the claim that `select_best_target` never returns a margin
cell. -/
theorem C5_fallback_returns_border_cell_cex :
    (select_best_target c5state (some c5grid) [(1, 1)] [] none).1 = some (1, 1)
    ∧ isEdge 8 8 1 1 = true :=
  ⟨by decide, by decide⟩

/-- Witness for the amended C5 theorem: a concrete working grid whose
accepted argmax cell (3,3) indeed lies outside the margin. -/
theorem C5_grid_tier_avoids_margin_witness :
    gridTierCandidate 8 8 c5wg = some ((3, 3), 300)
    ∧ isEdge 8 8 3 3 = false :=
  ⟨by decide, C5_grid_tier_avoids_margin 8 8 c5wg (3, 3) 300 (by decide)⟩

/-- C6 counterexample: with manager `c6mgr` (whose exclusion mask covers
the whole grid) the direct grid search fails and the `select_best_target`
fallback runs; its last-resort branch stores the hostile position (3,3) as
`best_target_pos` — replacing the previous target (6,6) — even though the
subsequent improvement computation over the uniform-200 grid yields 0,
below the 0.15 threshold, and the call reports `False`.  The target was
therefore replaced without the improvement condition holding,
contradicting the claim. -/
theorem C6_fallback_side_effect_retargets_cex :
    c6s.best_target_pos = some (6, 6)
    ∧ (update_target_position c6s [(3, 3)] [] c6mgr (some c6grid)).1.best_target_pos
        = some (3, 3)
    ∧ (update_target_position c6s [(3, 3)] [] c6mgr (some c6grid)).2 = false
    ∧ ¬ 3 / 20 < retargetImprovement 200 200 :=
  ⟨rfl, by decide, by decide, by decide⟩

/-- Witness for the amended C6 theorem: a concrete run in which the direct
grid search succeeds, the target switches from (4,4) to the candidate
(1,1), and the improvement/spacing conditions are verified. -/
theorem C6_switch_requires_improvement_and_spacing_witness :
    novaGridSearch c6wQ
        (retargetCombinedMask c6wmgr c6wQ (2, 2) (119 / 20 * ((48 : Int) : ℚ) / (112 / 5)))
        (4, 4) (some []) = some ((1, 1), 400)
    ∧ (update_target_position c6ws [] [] c6wmgr (some c6wgrid)).1.best_target_pos
        ≠ c6ws.best_target_pos
    ∧ 3 / 20 < retargetImprovement
        (c6wQ.val (clampIdx (4 : ℚ) c6wQ.h) (clampIdx (4 : ℚ) c6wQ.w)) 400
    ∧ (∀ t ∈ c6wmgr.current_targets.getD [], t ≠ ((4 : ℚ), (4 : ℚ)) → 25 ≤ dist2 (1, 1) t)
    ∧ (update_target_position c6ws [] [] c6wmgr (some c6wgrid)).1.best_target_pos
        = some (1, 1) := by
  have hmain := C6_switch_requires_improvement_and_spacing
    c6ws [] [] c6wmgr (some c6wgrid) (4, 4) ⟨(2, 2), 0⟩ (119 / 20) c6wQ (1, 1) 400
    rfl rfl (by decide) rfl rfl (by decide) (by decide)
  exact ⟨by decide, by decide, hmain.1, hmain.2.1, hmain.2.2⟩

end ConcreteEvaluations

end BoC
